import Mathlib

set_option maxHeartbeats 1000000

/-! Verification of the FBX marshaling layer in c_src/ufbx_nif.c.

The C file marshals scenes between the ufbx typed graph and Erlang terms.
Doubles are modeled as rationals: the marshaling layer only copies and
compares numeric values, it never performs floating-point arithmetic.
Erlang terms are modeled by the inductive type Term below; maps are
association lists with distinct keys, looked up like enif_get_map_value.
-/

inductive Term : Type where
  | int : Int → Term
  | flt : Rat → Term
  | atom : String → Term
  | binary : String → Term
  | charlist : String → Term
  | list : List Term → Term
  | map : List (String × Term) → Term

/-- Lookup of an atom key in a map term; models enif_get_map_value. -/
def get_map_value (m : Term) (k : String) : Option Term :=
  match m with
  | .map kvs => kvs.lookup k
  | _ => none

/-- Models enif_get_uint: succeeds only on integer terms in unsigned
32-bit range. -/
def enif_get_uint : Term → Option Nat
  | .int n => if 0 ≤ n ∧ n < 4294967296 then some n.toNat else none
  | _ => none

/-- Models enif_get_double: succeeds only on float terms, in particular it
fails on integer terms. -/
def enif_get_double : Term → Option Rat
  | .flt q => some q
  | _ => none

structure UVec2 where
  x : Rat
  y : Rat
  deriving DecidableEq

structure UVec3 where
  x : Rat
  y : Rat
  z : Rat
  deriving DecidableEq

structure UVec4 where
  x : Rat
  y : Rat
  z : Rat
  w : Rat
  deriving DecidableEq

/-- Models parse_string: accepts a binary or an atom, nothing else. -/
def parse_string : Term → Option String
  | .binary s => some s
  | .atom s => some s
  | _ => none

/-- Models parse_vec3_from_list: the term must be a list of length exactly
3 whose elements are all floats. -/
def parse_vec3_from_list : Term → Option UVec3
  | .list [a, b, c] =>
    match enif_get_double a, enif_get_double b, enif_get_double c with
    | some x, some y, some z => some ⟨x, y, z⟩
    | _, _, _ => none
  | _ => none

/-- Models parse_vec4_from_list. -/
def parse_vec4_from_list : Term → Option UVec4
  | .list [a, b, c, d] =>
    match enif_get_double a, enif_get_double b, enif_get_double c, enif_get_double d with
    | some x, some y, some z, some w => some ⟨x, y, z, w⟩
    | _, _, _, _ => none
  | _ => none

def get_map_uint (m : Term) (k : String) : Option Nat :=
  (get_map_value m k).bind enif_get_uint

def get_map_string (m : Term) (k : String) : Option String :=
  (get_map_value m k).bind parse_string

def get_map_vec3 (m : Term) (k : String) : Option UVec3 :=
  (get_map_value m k).bind parse_vec3_from_list

def get_map_vec4 (m : Term) (k : String) : Option UVec4 :=
  (get_map_value m k).bind parse_vec4_from_list

/-! Extraction side: the native ufbx entities that the extractor reads.
Pointer fields are modeled by the typed_id of the target, matching how the
C code dereferences them only to read typed_id. -/

def make_vec3 (v : UVec3) : Term := .list [.flt v.x, .flt v.y, .flt v.z]

def make_vec4 (v : UVec4) : Term := .list [.flt v.x, .flt v.y, .flt v.z, .flt v.w]

/-- Models make_string: an empty source string becomes a Latin-1 character
list term, a non-empty one becomes a binary. Binary allocation is modeled
as succeeding. -/
def make_string (s : String) : Term :=
  if s = "" then .charlist "" else .binary s

/-- Models make_vec3_list: the C iterates from the last element down and
conses, so the resulting term lists the vec3 sublists in source order. -/
def make_vec3_list (l : List UVec3) : Term := .list (l.map make_vec3)

def make_uint32_list (l : List Nat) : Term := .list (l.map fun n => Term.int n)

structure UNode where
  typed_id : Nat
  name : String
  parent : Option Nat
  children : List Nat
  translation : UVec3
  rotation : UVec4
  scale : UVec3
  mesh : Option Nat
  deriving DecidableEq

/-- Models extract_node: keys are added in the order the C fills its
key/value arrays. -/
def extract_node (node : UNode) (node_id : Nat) : Term :=
  Term.map
    (("id", Term.int node_id) ::
     ("name", make_string node.name) ::
     ((match node.parent with
       | some p => [("parent_id", Term.int p)]
       | none => []) ++
      (if 0 < node.children.length then
        [("children", Term.list (node.children.map fun c => Term.int c))]
       else []) ++
      [("translation", make_vec3 node.translation),
       ("rotation", make_vec4 node.rotation),
       ("scale", make_vec3 node.scale)] ++
      (match node.mesh with
       | some m => [("mesh_id", Term.int m)]
       | none => [])))

/-- One vertex attribute of vec3 arity; models the exists flag, values and
indices of a ufbx_vertex_vec3. -/
structure Vec3Attrib where
  exists_ : Bool
  values : List UVec3
  indices : List Nat
  deriving DecidableEq

structure Vec2Attrib where
  exists_ : Bool
  values : List UVec2
  deriving DecidableEq

structure UMesh where
  typed_id : Nat
  name : String
  vertex_position : Vec3Attrib
  vertex_normal : Vec3Attrib
  vertex_uv : Vec2Attrib
  materials : List Nat
  deriving DecidableEq

/-- Models extract_mesh. Note that positions and normals are emitted via
make_vec3_list, a list of 3-element sublists, and texcoords as a list of
2-element sublists; the indices key is only emitted inside the positions
branch. -/
def extract_mesh (mesh : UMesh) : Term :=
  Term.map
    (("id", Term.int mesh.typed_id) ::
     ("name", make_string mesh.name) ::
     ((if mesh.vertex_position.exists_ ∧ 0 < mesh.vertex_position.values.length then
        ("positions", make_vec3_list mesh.vertex_position.values) ::
        (if 0 < mesh.vertex_position.indices.length then
          [("indices", make_uint32_list mesh.vertex_position.indices)]
         else [])
       else []) ++
      (if mesh.vertex_normal.exists_ ∧ 0 < mesh.vertex_normal.values.length then
        [("normals", make_vec3_list mesh.vertex_normal.values)]
       else []) ++
      (if mesh.vertex_uv.exists_ ∧ 0 < mesh.vertex_uv.values.length then
        [("texcoords",
          Term.list (mesh.vertex_uv.values.map fun uv => Term.list [.flt uv.x, .flt uv.y]))]
       else []) ++
      (if 0 < mesh.materials.length then
        [("material_ids", Term.list (mesh.materials.map fun i => Term.int i))]
       else [])))

/-- One optional color source of a material; models ufbx_material_map. -/
structure ColorMap where
  has_value : Bool
  value_components : Nat
  value_vec3 : UVec3
  deriving DecidableEq

structure UMaterial where
  typed_id : Nat
  name : String
  pbr_base_color : ColorMap
  pbr_specular_color : ColorMap
  pbr_emission_color : ColorMap
  fbx_diffuse_color : ColorMap
  fbx_specular_color : ColorMap
  fbx_emission_color : ColorMap
  deriving DecidableEq

/-- Shared shape of the three color blocks of extract_material: the PBR
source is emitted when it has a value with at least 3 components, else the
legacy FBX source is emitted under the same test, else no entry at all. -/
def color_entry (key : String) (pbr fbx : ColorMap) : List (String × Term) :=
  if pbr.has_value ∧ 3 ≤ pbr.value_components then
    [(key, make_vec3 pbr.value_vec3)]
  else if fbx.has_value ∧ 3 ≤ fbx.value_components then
    [(key, make_vec3 fbx.value_vec3)]
  else []

/-- Models extract_material. -/
def extract_material (material : UMaterial) : Term :=
  Term.map
    (("id", Term.int material.typed_id) ::
     ("name", make_string material.name) ::
     (color_entry "diffuse_color" material.pbr_base_color material.fbx_diffuse_color ++
      color_entry "specular_color" material.pbr_specular_color material.fbx_specular_color ++
      color_entry "emissive_color" material.pbr_emission_color material.fbx_emission_color))

structure UTexture where
  typed_id : Nat
  name : String
  filename : String
  deriving DecidableEq

/-- Models extract_texture: file_path is emitted only for a non-empty
filename. -/
def extract_texture (texture : UTexture) : Term :=
  Term.map
    (("id", Term.int texture.typed_id) ::
     ("name", make_string texture.name) ::
     (if texture.filename = "" then [] else [("file_path", make_string texture.filename)]))

/-! Baked animation, as produced by the external baker and consumed by
extract_animation. -/

structure BakedVec3 where
  time : Rat
  value : UVec3
  deriving DecidableEq

structure BakedQuat where
  time : Rat
  value : UVec4
  deriving DecidableEq

structure BakedNode where
  typed_id : Nat
  translation_keys : List BakedVec3
  rotation_keys : List BakedQuat
  scale_keys : List BakedVec3
  deriving DecidableEq

/-- The keyframe map built for one translation or scale sample: the C puts
node_id first, then copies time and the channel value over. -/
def vec3_keyframe_map (node_id : Nat) (channel : String) (k : BakedVec3) : Term :=
  Term.map [("node_id", Term.int node_id), ("time", Term.flt k.time), (channel, make_vec3 k.value)]

/-- The keyframe map built for one rotation sample. -/
def quat_keyframe_map (node_id : Nat) (k : BakedQuat) : Term :=
  Term.map [("node_id", Term.int node_id), ("time", Term.flt k.time),
            ("rotation", Term.list [.flt k.value.x, .flt k.value.y, .flt k.value.z, .flt k.value.w])]

/-- Per-node contribution to the flattened keyframe list. extract_animation
walks each channel from the last sample down and conses onto the front of
the shared accumulator, translation first, then rotation, then scale, so a
node contributes its scale block, then its rotation block, then its
translation block, each block in source sample order. -/
def baked_node_block (bn : BakedNode) : List Term :=
  bn.scale_keys.map (vec3_keyframe_map bn.typed_id "scale") ++
  bn.rotation_keys.map (quat_keyframe_map bn.typed_id) ++
  bn.translation_keys.map (vec3_keyframe_map bn.typed_id "translation")

/-- The flattened keyframe list of extract_animation: the node loop also
runs from the last baked node down, consing in front, so node blocks appear
in source node order. -/
def extract_keyframes : List BakedNode → List Term
  | [] => []
  | bn :: rest => baked_node_block bn ++ extract_keyframes rest

/-- Models extract_animation for one baked stack. -/
def extract_animation (stack_id : Nat) (stack_name : String) (nodes : List BakedNode) : Term :=
  Term.map [("id", Term.int stack_id), ("name", make_string stack_name),
            ("keyframes", Term.list (extract_keyframes nodes))]

/-- The node_id field of an emitted keyframe equals the given id. -/
def hasNodeId (n : Nat) (t : Term) : Bool :=
  match get_map_value t "node_id" with
  | some (.int m) => m == (n : Int)
  | _ => false

/-- Selects the keyframes of one node and one channel out of the flattened
keyframe list. -/
def isChannelKF (n : Nat) (channel : String) (t : Term) : Bool :=
  (get_map_value t channel).isSome && hasNodeId n t

/-- The time field of an emitted keyframe. -/
def kfTime (t : Term) : Option Rat :=
  (get_map_value t "time").bind enif_get_double

/-! Builder side: reconstruction of a native writer scene from a generic
scene term, modeling build_ufbxw_scene_from_map and write_fbx_nif. Each
record below tracks which ufbxw setters were called on a handle and with
what values. -/

/-- A node built through the writer API. parent and attrib hold the
creation-order index of the target node or mesh handle. -/
structure WNode where
  name : Option String := none
  translation : Option UVec3 := none
  rotation : Option UVec4 := none
  scale : Option UVec3 := none
  parent : Option Nat := none
  attrib : Option Nat := none
  deriving DecidableEq

/-- A mesh built through the writer API. Triangle slots whose source term
is not an unsigned integer are left as uninitialized memory in the C, and
are modeled as none. -/
structure WMesh where
  name : Option String := none
  vertices : Option (List UVec3) := none
  triangles : Option (List (Option Int)) := none
  normals : Option (List UVec3) := none
  uvs : Option (List UVec2) := none
  deriving DecidableEq

structure WMaterial where
  name : Option String := none
  diffuse : Option UVec3 := none
  deriving DecidableEq

structure WScene where
  nodes : List WNode
  meshes : List WMesh
  materials : List WMaterial
  deriving DecidableEq

/-- Decode one run of 3 components of a flat attribute list: a component
term that is not a float is left at its initialized default, exactly as the
C loop ignores a failing enif_get_double. Only called on lists whose length
is a positive multiple of 3. -/
def decode3 (dx dy dz : Rat) : List Term → List UVec3
  | x :: y :: z :: rest =>
    ⟨(enif_get_double x).getD dx, (enif_get_double y).getD dy, (enif_get_double z).getD dz⟩ ::
      decode3 dx dy dz rest
  | _ => []

/-- Decode one run of 2 components of a flat texcoord list. -/
def decode2 (du dv : Rat) : List Term → List UVec2
  | u :: v :: rest =>
    ⟨(enif_get_double u).getD du, (enif_get_double v).getD dv⟩ :: decode2 du dv rest
  | _ => []

/-- Decode one face index; a slot whose term is not an unsigned integer is
left uninitialized in the C and modeled as none. In-range values go through
the cast to int32, which wraps values of 2^31 and above. -/
def decode_index (t : Term) : Option Int :=
  (enif_get_uint t).map fun n =>
    if n < 2147483648 then (n : Int) else (n : Int) - 4294967296

/-- The positions block of the mesh loop: the attribute is decoded and set
only when the key holds a list whose length is a positive multiple of 3;
component defaults are 0. -/
def mesh_vertices (entry : Term) : Option (List UVec3) :=
  match get_map_value entry "positions" with
  | some (.list ps) =>
    if 0 < ps.length / 3 ∧ ps.length % 3 = 0 then some (decode3 0 0 0 ps) else none
  | _ => none

/-- The indices block: set whenever the key holds a list, with no length
check at all. -/
def mesh_triangles (entry : Term) : Option (List (Option Int)) :=
  match get_map_value entry "indices" with
  | some (.list js) => some (js.map decode_index)
  | _ => none

/-- The normals block: same arity gate as positions, with component
defaults 0, 0 and 1 for the z slot. -/
def mesh_normals (entry : Term) : Option (List UVec3) :=
  match get_map_value entry "normals" with
  | some (.list ns) =>
    if 0 < ns.length / 3 ∧ ns.length % 3 = 0 then some (decode3 0 0 1 ns) else none
  | _ => none

/-- The texcoords block: positive multiple of 2, defaults 0. -/
def mesh_uvs (entry : Term) : Option (List UVec2) :=
  match get_map_value entry "texcoords" with
  | some (.list ts) =>
    if 0 < ts.length / 2 ∧ ts.length % 2 = 0 then some (decode2 0 0 ts) else none
  | _ => none

/-- Mesh construction on the branch where the scene term has a nodes list:
name, positions, indices, normals and texcoords are all handled. -/
def build_mesh_full (entry : Term) : WMesh :=
  { name := get_map_string entry "name"
    vertices := mesh_vertices entry
    triangles := mesh_triangles entry
    normals := mesh_normals entry
    uvs := mesh_uvs entry }

/-- Mesh construction on the branch where the scene term has no nodes key:
only name, positions and indices are handled; the normals and texcoords
blocks do not exist on that path. -/
def build_mesh_basic (entry : Term) : WMesh :=
  { name := get_map_string entry "name"
    vertices := mesh_vertices entry
    triangles := mesh_triangles entry
    normals := none
    uvs := none }

/-- Phase 1 for one node entry: the self-contained scalar attributes. A
setter runs only when its field parses, so a failed parse leaves the field
unset rather than at the local C default. -/
def build_node_scalars (entry : Term) : WNode :=
  { name := get_map_string entry "name"
    translation := get_map_vec3 entry "translation"
    rotation := get_map_vec4 entry "rotation"
    scale := get_map_vec3 entry "scale"
    parent := none
    attrib := none }

/-- Linear search for the first index whose element satisfies p, starting
the count at i; models the lookup loops over the id arrays. -/
def find_first {α : Type} (p : α → Bool) : List α → Nat → Option Nat
  | [], _ => none
  | a :: rest, i => if p a then some i else find_first p rest (i + 1)

/-- Declared id slots of a node or mesh list. The C allocates the id array
uninitialized and writes a slot only when get_map_uint succeeds on the id
key; an unwritten slot is modeled as none and never matches a lookup, so
theorems whose conclusion depends on a lookup assume every entry declares
an id, as the data model requires. -/
def declared_ids (entries : List Term) : List (Option Nat) :=
  entries.map fun entry => get_map_uint entry "id"

/-- Phase 2 wiring for one node entry: parent lookup by declared id (first
match wins, no match leaves the node unparented) and mesh attachment,
where the mesh id value 0 is the reserved no-mesh marker of the C array
initialization and is never looked up. A failed lookup yields none, the
same value as the untouched field, so the not-found case needs no branch. -/
def wire_node (ids mids : List (Option Nat)) (entry : Term) : WNode :=
  let wn := build_node_scalars entry
  let wn :=
    match get_map_uint entry "parent_id" with
    | some p => { wn with parent := find_first (fun oid => oid == some p) ids 0 }
    | none => wn
  let mref := (get_map_uint entry "mesh_id").getD 0
  if mref ≠ 0 then { wn with attrib := find_first (fun oid => oid == some mref) mids 0 }
  else wn

/-- Models build_ufbxw_scene_from_map. Allocation is modeled as succeeding,
so the builder is total; malformed fields are absorbed by the parsers.
When the nodes key holds a list, meshes are parsed with the full block;
when the nodes key is absent, meshes are parsed with the reduced block of
the else branch; when the nodes key holds a non-list, the mesh section is
never reached. Materials are parsed on every path. -/
def build_scene (scene_data : Term) : WScene :=
  let wmaterials :=
    match get_map_value scene_data "materials" with
    | some (.list ms) =>
      ms.map fun entry =>
        ({ name := get_map_string entry "name"
           diffuse := get_map_vec3 entry "diffuse_color" } : WMaterial)
    | _ => []
  match get_map_value scene_data "nodes" with
  | some (.list nodes) =>
    let meshes :=
      match get_map_value scene_data "meshes" with
      | some (.list ms) => ms
      | _ => []
    { nodes := nodes.map (wire_node (declared_ids nodes) (declared_ids meshes))
      meshes := meshes.map build_mesh_full
      materials := wmaterials }
  | some _ =>
    { nodes := [], meshes := [], materials := wmaterials }
  | none =>
    let wmeshes :=
      match get_map_value scene_data "meshes" with
      | some (.list ms) => ms.map build_mesh_basic
      | _ => []
    { nodes := [], meshes := wmeshes, materials := wmaterials }

inductive SaveFormat where
  | binary
  | ascii
  deriving DecidableEq

/-- Format selection of write_fbx_nif: only the atom ascii (which fits the
256 byte atom buffer) selects the ASCII writer; every other term, atom or
not, keeps the initialized default of binary. -/
def determine_format : Term → SaveFormat
  | .atom s => if s = "ascii" then .ascii else .binary
  | _ => .binary

inductive WriteResult where
  | ok : String → WriteResult
  | error : String → WriteResult
  deriving DecidableEq

/-- Models write_fbx_nif. The external writer ufbxw_save_file is abstracted
as the save_file argument, which receives the built scene, the selected
format and the fixed target version 7400. Scene construction and wiring
never fail; only a non-map scene argument (badarg) or a writer failure
produce a non-ok result. -/
def write_fbx (path : String) (scene_data : Term) (format_term : Term)
    (save_file : WScene → SaveFormat → Nat → Bool) : WriteResult :=
  match scene_data with
  | .map _ =>
    if save_file (build_scene scene_data) (determine_format format_term) 7400 then
      .ok path
    else
      .error "Failed to save FBX"
  | _ => .error "badarg"

/-! Helper lemmas shared by the claim theorems. -/

theorem filter_map_all {α β : Type} (p : β → Bool) (f : α → β) (l : List α)
    (h : ∀ a ∈ l, p (f a) = true) : (l.map f).filter p = l.map f := by
  induction l with
  | nil => rfl
  | cons a rest ih =>
    simp only [List.map_cons, List.filter_cons, h a (by simp), if_pos]
    rw [ih fun b hb => h b (by simp [hb])]

theorem filter_map_none {α β : Type} (p : β → Bool) (f : α → β) (l : List α)
    (h : ∀ a ∈ l, p (f a) = false) : (l.map f).filter p = [] := by
  induction l with
  | nil => rfl
  | cons a rest ih =>
    simp only [List.map_cons, List.filter_cons, h a (by simp)]
    exact ih fun b hb => h b (by simp [hb])

theorem natCast_beq (m n : Nat) : ((m : Int) == (n : Int)) = (m == n) := by
  by_cases h : m = n
  · subst h; simp
  · rw [beq_eq_false_iff_ne.mpr (by exact_mod_cast h), beq_eq_false_iff_ne.mpr h]

theorem find_first_eq_none {α : Type} (p : α → Bool) (l : List α)
    (h : ∀ a ∈ l, p a = false) : ∀ i, find_first p l i = none := by
  induction l with
  | nil => intro i; rfl
  | cons a rest ih =>
    intro i
    simp only [find_first, h a (by simp)]
    exact ih (fun b hb => h b (by simp [hb])) (i + 1)

/-- Comparison of the time fields of two emitted keyframe terms. -/
def kf_time_le (a b : Term) : Prop :=
  ∀ x ∈ kfTime a, ∀ y ∈ kfTime b, x ≤ y

theorem isChannelKF_trans_of_trans (n m : Nat) (k : BakedVec3) :
    isChannelKF n "translation" (vec3_keyframe_map m "translation" k) = (m == n) := by
  show (true && ((m : Int) == (n : Int))) = (m == n)
  rw [Bool.true_and, natCast_beq]

theorem isChannelKF_rot_of_rot (n m : Nat) (k : BakedQuat) :
    isChannelKF n "rotation" (quat_keyframe_map m k) = (m == n) := by
  show (true && ((m : Int) == (n : Int))) = (m == n)
  rw [Bool.true_and, natCast_beq]

theorem isChannelKF_scale_of_scale (n m : Nat) (k : BakedVec3) :
    isChannelKF n "scale" (vec3_keyframe_map m "scale" k) = (m == n) := by
  show (true && ((m : Int) == (n : Int))) = (m == n)
  rw [Bool.true_and, natCast_beq]

theorem filter_block_self_trans (bn : BakedNode) :
    (baked_node_block bn).filter (isChannelKF bn.typed_id "translation")
      = bn.translation_keys.map (vec3_keyframe_map bn.typed_id "translation") := by
  unfold baked_node_block
  rw [List.filter_append, List.filter_append]
  rw [filter_map_none _ _ _ (fun k _ => rfl),
      filter_map_none _ _ _ (fun k _ => rfl),
      filter_map_all _ _ _ (fun k _ => by rw [isChannelKF_trans_of_trans]; simp)]
  rfl

theorem filter_block_self_rot (bn : BakedNode) :
    (baked_node_block bn).filter (isChannelKF bn.typed_id "rotation")
      = bn.rotation_keys.map (quat_keyframe_map bn.typed_id) := by
  unfold baked_node_block
  rw [List.filter_append, List.filter_append]
  rw [filter_map_none _ _ _ (fun k _ => rfl),
      filter_map_all _ _ _ (fun k _ => by rw [isChannelKF_rot_of_rot]; simp),
      filter_map_none _ _ _ (fun k _ => rfl)]
  simp

theorem filter_block_self_scale (bn : BakedNode) :
    (baked_node_block bn).filter (isChannelKF bn.typed_id "scale")
      = bn.scale_keys.map (vec3_keyframe_map bn.typed_id "scale") := by
  unfold baked_node_block
  rw [List.filter_append, List.filter_append]
  rw [filter_map_all _ _ _ (fun k _ => by rw [isChannelKF_scale_of_scale]; simp),
      filter_map_none _ _ _ (fun k _ => rfl),
      filter_map_none _ _ _ (fun k _ => rfl)]
  simp

theorem filter_block_other (n : Nat) (bn : BakedNode) (h : bn.typed_id ≠ n) :
    ((baked_node_block bn).filter (isChannelKF n "translation") = []
      ∧ (baked_node_block bn).filter (isChannelKF n "rotation") = []
      ∧ (baked_node_block bn).filter (isChannelKF n "scale") = []) := by
  have hb : (bn.typed_id == n) = false := beq_eq_false_iff_ne.mpr h
  refine ⟨?_, ?_, ?_⟩ <;> unfold baked_node_block <;>
    rw [List.filter_append, List.filter_append]
  · rw [filter_map_none _ _ _ (fun k _ => rfl),
        filter_map_none _ _ _ (fun k _ => rfl),
        filter_map_none _ _ _ (fun k _ => by rw [isChannelKF_trans_of_trans, hb])]
    rfl
  · rw [filter_map_none _ _ _ (fun k _ => rfl),
        filter_map_none _ _ _ (fun k _ => by rw [isChannelKF_rot_of_rot, hb]),
        filter_map_none _ _ _ (fun k _ => rfl)]
    rfl
  · rw [filter_map_none _ _ _ (fun k _ => by rw [isChannelKF_scale_of_scale, hb]),
        filter_map_none _ _ _ (fun k _ => rfl),
        filter_map_none _ _ _ (fun k _ => rfl)]
    rfl

theorem filter_extract_other (n : Nat) (nodes : List BakedNode)
    (h : ∀ b ∈ nodes, b.typed_id ≠ n) :
    ((extract_keyframes nodes).filter (isChannelKF n "translation") = []
      ∧ (extract_keyframes nodes).filter (isChannelKF n "rotation") = []
      ∧ (extract_keyframes nodes).filter (isChannelKF n "scale") = []) := by
  induction nodes with
  | nil => exact ⟨rfl, rfl, rfl⟩
  | cons a rest ih =>
    have ha := filter_block_other n a (h a (by simp))
    have hr := ih fun b hb => h b (by simp [hb])
    unfold extract_keyframes
    rw [List.filter_append, List.filter_append, List.filter_append]
    refine ⟨?_, ?_, ?_⟩
    · rw [ha.1, hr.1]; rfl
    · rw [ha.2.1, hr.2.1]; rfl
    · rw [ha.2.2, hr.2.2]; rfl

theorem filter_extract_self (nodes : List BakedNode) (bn : BakedNode)
    (hmem : bn ∈ nodes)
    (hdist : nodes.Pairwise fun a b => a.typed_id ≠ b.typed_id) :
    ((extract_keyframes nodes).filter (isChannelKF bn.typed_id "translation")
        = bn.translation_keys.map (vec3_keyframe_map bn.typed_id "translation")
      ∧ (extract_keyframes nodes).filter (isChannelKF bn.typed_id "rotation")
        = bn.rotation_keys.map (quat_keyframe_map bn.typed_id)
      ∧ (extract_keyframes nodes).filter (isChannelKF bn.typed_id "scale")
        = bn.scale_keys.map (vec3_keyframe_map bn.typed_id "scale")) := by
  induction nodes with
  | nil => cases hmem
  | cons a rest ih =>
    have hd := List.pairwise_cons.mp hdist
    unfold extract_keyframes
    rw [List.filter_append, List.filter_append, List.filter_append]
    rcases List.mem_cons.mp hmem with heq | hmem2
    · subst heq
      have hrest := filter_extract_other bn.typed_id rest fun b hb => (hd.1 b hb).symm
      rw [filter_block_self_trans, filter_block_self_rot, filter_block_self_scale,
          hrest.1, hrest.2.1, hrest.2.2]
      exact ⟨by simp, by simp, by simp⟩
    · have hne : a.typed_id ≠ bn.typed_id := hd.1 bn hmem2
      have ha := filter_block_other bn.typed_id a hne
      have hr := ih hmem2 hd.2
      rw [ha.1, ha.2.1, ha.2.2, hr.1, hr.2.1, hr.2.2]
      exact ⟨by simp, by simp, by simp⟩

theorem kfTime_vec3 (n : Nat) (ch : String) (k : BakedVec3) :
    kfTime (vec3_keyframe_map n ch k) = some k.time := rfl

theorem kfTime_quat (n : Nat) (k : BakedQuat) :
    kfTime (quat_keyframe_map n k) = some k.time := rfl

/-- Claim C8: in the flattened keyframe list of an extracted animation, for
every baked node, the subsequence of its keyframes belonging to one channel
(translation, rotation or scale) equals the source sample list of that
channel in source order, and is therefore non-decreasing in time whenever
the baked source samples are. Baked node ids are pairwise distinct in a
ufbx baked animation. -/
theorem claim8_keyframe_channel_order (nodes : List BakedNode) (bn : BakedNode)
    (hmem : bn ∈ nodes)
    (hdist : nodes.Pairwise fun a b => a.typed_id ≠ b.typed_id)
    (hT : bn.translation_keys.Pairwise fun a b => a.time ≤ b.time)
    (hR : bn.rotation_keys.Pairwise fun a b => a.time ≤ b.time)
    (hS : bn.scale_keys.Pairwise fun a b => a.time ≤ b.time) :
    ((extract_keyframes nodes).filter (isChannelKF bn.typed_id "translation")
        = bn.translation_keys.map (vec3_keyframe_map bn.typed_id "translation")
      ∧ ((extract_keyframes nodes).filter (isChannelKF bn.typed_id "translation")).Pairwise kf_time_le)
    ∧ ((extract_keyframes nodes).filter (isChannelKF bn.typed_id "rotation")
        = bn.rotation_keys.map (quat_keyframe_map bn.typed_id)
      ∧ ((extract_keyframes nodes).filter (isChannelKF bn.typed_id "rotation")).Pairwise kf_time_le)
    ∧ ((extract_keyframes nodes).filter (isChannelKF bn.typed_id "scale")
        = bn.scale_keys.map (vec3_keyframe_map bn.typed_id "scale")
      ∧ ((extract_keyframes nodes).filter (isChannelKF bn.typed_id "scale")).Pairwise kf_time_le) := by
  obtain ⟨h1, h2, h3⟩ := filter_extract_self nodes bn hmem hdist
  refine ⟨⟨h1, ?_⟩, ⟨h2, ?_⟩, ⟨h3, ?_⟩⟩
  · rw [h1, List.pairwise_map]
    refine hT.imp fun hab x hx y hy => ?_
    simp only [kfTime_vec3, Option.mem_def, Option.some.injEq] at hx hy
    subst hx; subst hy; exact hab
  · rw [h2, List.pairwise_map]
    refine hR.imp fun hab x hx y hy => ?_
    simp only [kfTime_quat, Option.mem_def, Option.some.injEq] at hx hy
    subst hx; subst hy; exact hab
  · rw [h3, List.pairwise_map]
    refine hS.imp fun hab x hx y hy => ?_
    simp only [kfTime_vec3, Option.mem_def, Option.some.injEq] at hx hy
    subst hx; subst hy; exact hab

/-- A concrete baked node used by the claim C8 witness. -/
def kfDemoNode : BakedNode :=
  { typed_id := 1
    translation_keys := [⟨0, ⟨1, 0, 0⟩⟩, ⟨1, ⟨2, 0, 0⟩⟩, ⟨2, ⟨3, 0, 0⟩⟩]
    rotation_keys := [⟨0, ⟨0, 0, 0, 1⟩⟩, ⟨1, ⟨0, 0, 0, 1⟩⟩]
    scale_keys := [⟨0, ⟨1, 1, 1⟩⟩] }

def kfDemoNodes : List BakedNode :=
  [kfDemoNode,
   { typed_id := 2
     translation_keys := [⟨5, ⟨9, 9, 9⟩⟩]
     rotation_keys := []
     scale_keys := [⟨7, ⟨2, 2, 2⟩⟩] }]

theorem claim8_keyframe_channel_order_witness :
    (extract_keyframes kfDemoNodes).filter (isChannelKF kfDemoNode.typed_id "translation")
        = kfDemoNode.translation_keys.map (vec3_keyframe_map kfDemoNode.typed_id "translation")
      ∧ ((extract_keyframes kfDemoNodes).filter (isChannelKF kfDemoNode.typed_id "translation")).Pairwise kf_time_le :=
  (claim8_keyframe_channel_order kfDemoNodes kfDemoNode (by decide) (by decide)
    (by decide) (by decide) (by decide)).1

/-! Claims about the extraction direction. -/

/-- A concrete one-triangle mesh whose positions, normals and texcoords are
all present, exercising the failing input of claim C1. -/
def cex1_mesh : UMesh :=
  { typed_id := 0
    name := "Cube"
    vertex_position := { exists_ := true, values := [⟨1, 2, 3⟩, ⟨4, 5, 6⟩], indices := [0, 1] }
    vertex_normal := { exists_ := true, values := [⟨0, 0, 1⟩], indices := [] }
    vertex_uv := { exists_ := true, values := [⟨0, 1⟩] }
    materials := [] }

/-- True exactly of a term that is one flat list of float values, the
shape claim C1 asserts for the emitted mesh attributes. -/
def flat_float_list : Term → Bool
  | .list ts =>
    ts.all fun t =>
      match t with
      | .flt _ => true
      | _ => false
  | _ => false

/-- Claim C1 is false of the code: extract_mesh emits positions and normals
as a list of 3-element sublists and texcoords as a list of 2-element
sublists, not as one flat sequence of doubles. At the concrete mesh above
each emitted value is a nested list and fails the flat-list test. The
writer side of the same file consumes the flat form, so this is recorded as
a defect of the extraction code. -/
theorem claim1_extract_emits_nested_tuples :
    get_map_value (extract_mesh cex1_mesh) "positions"
        = some (Term.list [Term.list [.flt 1, .flt 2, .flt 3], Term.list [.flt 4, .flt 5, .flt 6]])
      ∧ get_map_value (extract_mesh cex1_mesh) "normals"
        = some (Term.list [Term.list [.flt 0, .flt 0, .flt 1]])
      ∧ get_map_value (extract_mesh cex1_mesh) "texcoords"
        = some (Term.list [Term.list [.flt 0, .flt 1]])
      ∧ (get_map_value (extract_mesh cex1_mesh) "positions").map flat_float_list = some false
      ∧ (get_map_value (extract_mesh cex1_mesh) "normals").map flat_float_list = some false
      ∧ (get_map_value (extract_mesh cex1_mesh) "texcoords").map flat_float_list = some false :=
  ⟨rfl, rfl, rfl, rfl, rfl, rfl⟩

/-- A material whose only color source is the legacy FBX diffuse entry with
just 2 value components; claim C5 says the emitted diffuse falls back to
this present source, but extract_material emits nothing. -/
def cex5_material : UMaterial :=
  { typed_id := 0
    name := "M"
    pbr_base_color := { has_value := false, value_components := 0, value_vec3 := ⟨0, 0, 0⟩ }
    pbr_specular_color := { has_value := false, value_components := 0, value_vec3 := ⟨0, 0, 0⟩ }
    pbr_emission_color := { has_value := false, value_components := 0, value_vec3 := ⟨0, 0, 0⟩ }
    fbx_diffuse_color := { has_value := true, value_components := 2, value_vec3 := ⟨1, 0, 0⟩ }
    fbx_specular_color := { has_value := false, value_components := 0, value_vec3 := ⟨0, 0, 0⟩ }
    fbx_emission_color := { has_value := false, value_components := 0, value_vec3 := ⟨0, 0, 0⟩ } }

/-- Counterexample to claim C5 as stated: the legacy diffuse source is
present (has_value true) yet no diffuse_color entry is emitted, because the
fallback also requires at least 3 value components. -/
theorem claim5_low_component_fallback_counterexample :
    cex5_material.fbx_diffuse_color.has_value = true
      ∧ get_map_value (extract_material cex5_material) "diffuse_color" = none := ⟨rfl, rfl⟩

/-- Claim C5 as amended: a color source is eligible only when it has a
value with at least 3 components; the PBR source is preferred when
eligible, else the legacy FBX source is used when eligible, else the field
is omitted. This holds for each of the three color fields. -/
theorem claim5_color_precedence_amended (m : UMaterial) :
    (get_map_value (extract_material m) "diffuse_color"
        = (if m.pbr_base_color.has_value ∧ 3 ≤ m.pbr_base_color.value_components then
             some (make_vec3 m.pbr_base_color.value_vec3)
           else if m.fbx_diffuse_color.has_value ∧ 3 ≤ m.fbx_diffuse_color.value_components then
             some (make_vec3 m.fbx_diffuse_color.value_vec3)
           else none))
      ∧ (get_map_value (extract_material m) "specular_color"
        = (if m.pbr_specular_color.has_value ∧ 3 ≤ m.pbr_specular_color.value_components then
             some (make_vec3 m.pbr_specular_color.value_vec3)
           else if m.fbx_specular_color.has_value ∧ 3 ≤ m.fbx_specular_color.value_components then
             some (make_vec3 m.fbx_specular_color.value_vec3)
           else none))
      ∧ (get_map_value (extract_material m) "emissive_color"
        = (if m.pbr_emission_color.has_value ∧ 3 ≤ m.pbr_emission_color.value_components then
             some (make_vec3 m.pbr_emission_color.value_vec3)
           else if m.fbx_emission_color.has_value ∧ 3 ≤ m.fbx_emission_color.value_components then
             some (make_vec3 m.fbx_emission_color.value_vec3)
           else none)) := by
  unfold extract_material color_entry get_map_value
  refine ⟨?_, ?_, ?_⟩ <;> split_ifs <;> rfl

/-- Claim C10: every extractor (node, mesh, material, texture, animation)
emits a name entry built by make_string, which yields a binary for a
non-empty source name and a Latin-1 character list term for an empty one;
the key is never omitted. -/
theorem claim10_name_emission :
    (∀ (node : UNode) (node_id : Nat),
        get_map_value (extract_node node node_id) "name" = some (make_string node.name))
      ∧ (∀ mesh : UMesh,
        get_map_value (extract_mesh mesh) "name" = some (make_string mesh.name))
      ∧ (∀ material : UMaterial,
        get_map_value (extract_material material) "name" = some (make_string material.name))
      ∧ (∀ texture : UTexture,
        get_map_value (extract_texture texture) "name" = some (make_string texture.name))
      ∧ (∀ (stack_id : Nat) (stack_name : String) (baked : List BakedNode),
        get_map_value (extract_animation stack_id stack_name baked) "name"
          = some (make_string stack_name))
      ∧ (∀ s : String, s ≠ "" → make_string s = Term.binary s)
      ∧ make_string "" = Term.charlist "" := by
  refine ⟨fun node node_id => rfl, fun mesh => rfl, fun material => rfl, fun texture => rfl,
    fun stack_id stack_name baked => rfl, fun s hs => ?_, rfl⟩
  unfold make_string
  rw [if_neg hs]

/-- Witness for claim C10 at concrete inputs. -/
theorem claim10_name_emission_witness :
    get_map_value (extract_texture { typed_id := 3, name := "Tex", filename := "" }) "name"
        = some (make_string "Tex")
      ∧ make_string "Tex" = Term.binary "Tex" :=
  ⟨claim10_name_emission.2.2.2.1 { typed_id := 3, name := "Tex", filename := "" },
   claim10_name_emission.2.2.2.2.2.1 "Tex" (by decide)⟩

/-! Claims about the builder direction. -/

theorem wire_node_parent_of_some (ids mids : List (Option Nat)) (entry : Term) (p : Nat)
    (hp : get_map_uint entry "parent_id" = some p) :
    (wire_node ids mids entry).parent = find_first (fun oid => oid == some p) ids 0 := by
  unfold wire_node
  rw [hp]
  dsimp only
  split <;> rfl

theorem wire_node_attrib_of_some (ids mids : List (Option Nat)) (entry : Term) (m : Nat)
    (hm : get_map_uint entry "mesh_id" = some m) (h0 : m ≠ 0) :
    (wire_node ids mids entry).attrib = find_first (fun oid => oid == some m) mids 0 := by
  unfold wire_node
  rw [hm]
  dsimp only [Option.getD_some]
  rw [if_pos h0]

theorem build_scene_with_nodes (kvs : List (String × Term)) (nodes ms : List Term)
    (hn : List.lookup "nodes" kvs = some (Term.list nodes))
    (hm : List.lookup "meshes" kvs = some (Term.list ms)) :
    (build_scene (Term.map kvs)).nodes
        = nodes.map (wire_node (declared_ids nodes) (declared_ids ms))
      ∧ (build_scene (Term.map kvs)).meshes = ms.map build_mesh_full := by
  unfold build_scene
  simp only [get_map_value]
  rw [hn, hm]
  exact ⟨rfl, rfl⟩

theorem build_scene_no_nodes (kvs : List (String × Term)) (ms : List Term)
    (hn : List.lookup "nodes" kvs = none)
    (hm : List.lookup "meshes" kvs = some (Term.list ms)) :
    (build_scene (Term.map kvs)).meshes = ms.map build_mesh_basic := by
  unfold build_scene
  simp only [get_map_value]
  rw [hn, hm]

/-- The mesh entry list of a scene term, as resolved by the mesh section of
the builder. -/
def scene_meshes_list (kvs : List (String × Term)) : List Term :=
  match List.lookup "meshes" kvs with
  | some (Term.list ms) => ms
  | _ => []

theorem build_scene_nodes_eq (kvs : List (String × Term)) (nodes : List Term)
    (hn : List.lookup "nodes" kvs = some (Term.list nodes)) :
    (build_scene (Term.map kvs)).nodes
      = nodes.map (wire_node (declared_ids nodes) (declared_ids (scene_meshes_list kvs))) := by
  unfold build_scene scene_meshes_list
  simp only [get_map_value]
  rw [hn]

/-- The node and mesh entries of the counterexample scene of claim C2: one
node that declares mesh_id 0 and one mesh that declares id 0. -/
def cex2_scene : Term :=
  Term.map [("nodes", Term.list [Term.map [("id", Term.int 0), ("mesh_id", Term.int 0)]]),
            ("meshes", Term.list [Term.map [("id", Term.int 0)]])]

/-- Counterexample to claim C2 as stated: the node entry carries mesh_id 0
and a mesh entry declares id 0, yet the built node gets no attached mesh,
because the builder initializes its mesh reference array with 0 as the
no-mesh marker and skips the lookup for that value. -/
theorem claim2_mesh_id_zero_counterexample :
    get_map_uint (Term.map [("id", Term.int 0), ("mesh_id", Term.int 0)]) "mesh_id" = some 0
      ∧ declared_ids [Term.map [("id", Term.int 0)]] = [some 0]
      ∧ List.map WNode.attrib (build_scene cex2_scene).nodes = [none] := by decide

/-- Claim C2 as amended: for every node entry whose mesh_id is present and
nonzero, if some mesh entry declares that id then the built node has the
first such mesh attached; the id value 0 is excluded because the builder
reserves it as the no-mesh marker. -/
theorem claim2_nonzero_mesh_id_attached (kvs : List (String × Term)) (nodes ms : List Term)
    (i : Nat) (entry : Term) (m j : Nat)
    (hn : List.lookup "nodes" kvs = some (Term.list nodes))
    (hm : List.lookup "meshes" kvs = some (Term.list ms))
    (hi : nodes[i]? = some entry)
    (hmid : get_map_uint entry "mesh_id" = some m)
    (h0 : m ≠ 0)
    (hfind : find_first (fun oid => oid == some m) (declared_ids ms) 0 = some j) :
    ((build_scene (Term.map kvs)).nodes[i]?).map WNode.attrib = some (some j) := by
  rw [(build_scene_with_nodes kvs nodes ms hn hm).1, List.getElem?_map, hi]
  simp only [Option.map_some']
  rw [wire_node_attrib_of_some _ _ _ _ hmid h0, hfind]

/-- Witness for claim C2 at a concrete scene: node with mesh_id 1, mesh
with id 1, attached as mesh handle index 0. -/
theorem claim2_nonzero_mesh_id_attached_witness :
    ((build_scene (Term.map
          [("nodes", Term.list [Term.map [("id", Term.int 0), ("mesh_id", Term.int 1)]]),
           ("meshes", Term.list [Term.map [("id", Term.int 1)]])])).nodes[0]?).map WNode.attrib
      = some (some 0) :=
  claim2_nonzero_mesh_id_attached
    [("nodes", Term.list [Term.map [("id", Term.int 0), ("mesh_id", Term.int 1)]]),
     ("meshes", Term.list [Term.map [("id", Term.int 1)]])]
    [Term.map [("id", Term.int 0), ("mesh_id", Term.int 1)]]
    [Term.map [("id", Term.int 1)]]
    0 (Term.map [("id", Term.int 0), ("mesh_id", Term.int 1)]) 1 0
    rfl rfl rfl (by decide) (by decide) (by decide)

/-- Claim C6: a node entry whose parent_id matches no declared node id is
left unparented, and the write still succeeds; wiring never fails the
build. Every node entry is assumed to declare an id, as the data model
requires, because the C implementation reads uninitialized id slots for
entries without one. -/
theorem claim6_unresolved_parent_unparented (kvs : List (String × Term)) (nodes : List Term)
    (i : Nat) (entry : Term) (p : Nat)
    (hn : List.lookup "nodes" kvs = some (Term.list nodes))
    (hi : nodes[i]? = some entry)
    (hp : get_map_uint entry "parent_id" = some p)
    (_hall : ∀ e ∈ nodes, (get_map_uint e "id").isSome = true)
    (hnone : ∀ e ∈ nodes, get_map_uint e "id" ≠ some p) :
    ((build_scene (Term.map kvs)).nodes[i]?).map WNode.parent = some none
      ∧ ∀ (path : String) (fmt : Term),
          write_fbx path (Term.map kvs) fmt (fun _ _ _ => true) = WriteResult.ok path := by
  refine ⟨?_, fun path fmt => rfl⟩
  rw [build_scene_nodes_eq kvs nodes hn, List.getElem?_map, hi]
  simp only [Option.map_some']
  rw [wire_node_parent_of_some _ _ _ _ hp]
  rw [find_first_eq_none]
  intro a ha
  unfold declared_ids at ha
  obtain ⟨e, he, rfl⟩ := List.mem_map.mp ha
  exact beq_eq_false_iff_ne.mpr (hnone e he)

def wit6_node : Term := Term.map [("id", Term.int 0), ("parent_id", Term.int 5)]

def wit6_kvs : List (String × Term) := [("nodes", Term.list [wit6_node])]

/-- Witness for claim C6: parent_id 5 matches no declared id. -/
theorem claim6_unresolved_parent_unparented_witness :
    ((build_scene (Term.map wit6_kvs)).nodes[0]?).map WNode.parent = some none :=
  (claim6_unresolved_parent_unparented wit6_kvs [wit6_node] 0 wit6_node 5
    rfl rfl (by decide) (by decide) (by decide)).1

/-- Claim C4: a positions list whose length is empty or not a multiple of 3
leaves the vertex attribute unset on both mesh construction paths, no error
is raised, and a write with a succeeding external writer still returns ok
for any scene map. -/
theorem claim4_positions_arity_guard (entry : Term) (ps : List Term)
    (hpos : get_map_value entry "positions" = some (Term.list ps))
    (hbad : ps.length % 3 ≠ 0 ∨ ps = []) :
    (build_mesh_full entry).vertices = none
      ∧ (build_mesh_basic entry).vertices = none
      ∧ ∀ (path : String) (kvs : List (String × Term)) (fmt : Term),
          write_fbx path (Term.map kvs) fmt (fun _ _ _ => true) = WriteResult.ok path := by
  have hv : mesh_vertices entry = none := by
    unfold mesh_vertices
    rw [hpos]
    dsimp only
    rw [if_neg]
    rintro ⟨hlt, hmod⟩
    rcases hbad with hb | hb
    · exact hb hmod
    · subst hb; simp at hlt
  exact ⟨hv, hv, fun path kvs fmt => rfl⟩

/-- Witness for claim C4: a 2-element positions list. -/
theorem claim4_positions_arity_guard_witness :
    (build_mesh_full (Term.map [("positions", Term.list [Term.flt 1, Term.flt 2])])).vertices
      = none :=
  (claim4_positions_arity_guard (Term.map [("positions", Term.list [Term.flt 1, Term.flt 2])])
    [Term.flt 1, Term.flt 2] rfl (Or.inl (by decide))).1

/-- A mesh entry with valid normals and texcoords, and the two scene terms
around it that differ only in the presence of the nodes key. -/
def cex3_mesh_entry : Term :=
  Term.map [("id", Term.int 0),
            ("normals", Term.list [Term.flt 1, Term.flt 0, Term.flt 0]),
            ("texcoords", Term.list [Term.flt 0, Term.flt 1])]

def cex3_kvs : List (String × Term) := [("meshes", Term.list [cex3_mesh_entry])]

def cex3_kvs_nodes : List (String × Term) :=
  [("nodes", Term.list []), ("meshes", Term.list [cex3_mesh_entry])]

/-- Counterexample to claim C3 as stated: without a nodes key the same mesh
entry gets neither normals nor texcoords set, although both pass the arity
check, as the variant scene with an empty nodes list shows. -/
theorem claim3_no_nodes_key_counterexample :
    get_map_value (Term.map cex3_kvs) "nodes" = none
      ∧ List.map WMesh.normals (build_scene (Term.map cex3_kvs)).meshes = [none]
      ∧ List.map WMesh.uvs (build_scene (Term.map cex3_kvs)).meshes = [none]
      ∧ List.map WMesh.normals (build_scene (Term.map cex3_kvs_nodes)).meshes
          = [some [⟨1, 0, 0⟩]]
      ∧ List.map WMesh.uvs (build_scene (Term.map cex3_kvs_nodes)).meshes
          = [some [⟨0, 1⟩]] :=
  ⟨rfl, by decide, by decide, by decide, by decide⟩

/-- Claim C3 as amended: when the scene term has a nodes key holding a
list, every mesh entry is decoded with the full attribute block (positions,
indices, normals, texcoords, each subject only to its arity check); when
the nodes key is absent, meshes are decoded by the reduced block that never
sets normals or texcoords. -/
theorem claim3_mesh_decoding_by_branch (kvs : List (String × Term)) (ms : List Term)
    (j : Nat) (entry : Term)
    (hm : List.lookup "meshes" kvs = some (Term.list ms))
    (hj : ms[j]? = some entry) :
    (∀ nodeEntries : List Term, List.lookup "nodes" kvs = some (Term.list nodeEntries) →
        (build_scene (Term.map kvs)).meshes[j]? = some (build_mesh_full entry))
      ∧ (List.lookup "nodes" kvs = none →
        (build_scene (Term.map kvs)).meshes[j]? = some (build_mesh_basic entry)
          ∧ (build_mesh_basic entry).normals = none
          ∧ (build_mesh_basic entry).uvs = none)
      ∧ (∀ ns : List Term, get_map_value entry "normals" = some (Term.list ns) →
          ns.length % 3 = 0 → 0 < ns.length →
          (build_mesh_full entry).normals = some (decode3 0 0 1 ns))
      ∧ (∀ ts : List Term, get_map_value entry "texcoords" = some (Term.list ts) →
          ts.length % 2 = 0 → 0 < ts.length →
          (build_mesh_full entry).uvs = some (decode2 0 0 ts)) := by
  refine ⟨?_, ?_, ?_, ?_⟩
  · intro nodeEntries hn
    rw [(build_scene_with_nodes kvs nodeEntries ms hn hm).2, List.getElem?_map, hj]
    rfl
  · intro hn
    refine ⟨?_, rfl, rfl⟩
    rw [build_scene_no_nodes kvs ms hn hm, List.getElem?_map, hj]
    rfl
  · intro ns hns h3 h0
    show mesh_normals entry = _
    unfold mesh_normals
    rw [hns]
    dsimp only
    rw [if_pos ⟨by omega, h3⟩]
  · intro ts hts h2 h0
    show mesh_uvs entry = _
    unfold mesh_uvs
    rw [hts]
    dsimp only
    rw [if_pos ⟨by omega, h2⟩]

/-- Witness for claim C3 at the concrete scene with a nodes list. -/
theorem claim3_mesh_decoding_by_branch_witness :
    (build_scene (Term.map cex3_kvs_nodes)).meshes[0]? = some (build_mesh_full cex3_mesh_entry) :=
  (claim3_mesh_decoding_by_branch cex3_kvs_nodes [cex3_mesh_entry] 0 cex3_mesh_entry
    rfl rfl).1 [] rfl

/-- Claim C9: once the arity check passes, every attribute is set and each
component that is not a float term decodes to the initialized default (0,
except 1 for the z slot of a normal) while the other components decode
normally; nothing is dropped and nothing fails. -/
theorem claim9_nonfloat_component_defaults (entry : Term) (ps ns ts : List Term)
    (hp : get_map_value entry "positions" = some (Term.list ps))
    (hp3 : ps.length % 3 = 0) (hp0 : 0 < ps.length)
    (hn : get_map_value entry "normals" = some (Term.list ns))
    (hn3 : ns.length % 3 = 0) (hn0 : 0 < ns.length)
    (ht : get_map_value entry "texcoords" = some (Term.list ts))
    (ht2 : ts.length % 2 = 0) (ht0 : 0 < ts.length) :
    (build_mesh_full entry).vertices = some (decode3 0 0 0 ps)
      ∧ (build_mesh_full entry).normals = some (decode3 0 0 1 ns)
      ∧ (build_mesh_full entry).uvs = some (decode2 0 0 ts)
      ∧ (∀ t : Term, (∀ q : Rat, t ≠ Term.flt q) → enif_get_double t = none)
      ∧ (∀ (y z : Rat) (t : Term) (rest : List Term), enif_get_double t = none →
          decode3 0 0 0 (t :: Term.flt y :: Term.flt z :: rest)
            = ⟨0, y, z⟩ :: decode3 0 0 0 rest)
      ∧ (∀ (x y : Rat) (t : Term) (rest : List Term), enif_get_double t = none →
          decode3 0 0 1 (Term.flt x :: Term.flt y :: t :: rest)
            = ⟨x, y, 1⟩ :: decode3 0 0 1 rest)
      ∧ (∀ (u : Rat) (t : Term) (rest : List Term), enif_get_double t = none →
          decode2 0 0 (Term.flt u :: t :: rest) = ⟨u, 0⟩ :: decode2 0 0 rest) := by
  refine ⟨?_, ?_, ?_, ?_, ?_, ?_, ?_⟩
  · show mesh_vertices entry = _
    unfold mesh_vertices
    rw [hp]
    dsimp only
    rw [if_pos ⟨by omega, hp3⟩]
  · show mesh_normals entry = _
    unfold mesh_normals
    rw [hn]
    dsimp only
    rw [if_pos ⟨by omega, hn3⟩]
  · show mesh_uvs entry = _
    unfold mesh_uvs
    rw [ht]
    dsimp only
    rw [if_pos ⟨by omega, ht2⟩]
  · intro t hq
    cases t <;> first | rfl | exact absurd rfl (hq _)
  · intro y z t rest hd
    have he : decode3 0 0 0 (t :: Term.flt y :: Term.flt z :: rest)
        = ⟨(enif_get_double t).getD 0, (enif_get_double (Term.flt y)).getD 0,
           (enif_get_double (Term.flt z)).getD 0⟩ :: decode3 0 0 0 rest := rfl
    rw [he, hd]
    rfl
  · intro x y t rest hd
    have he : decode3 0 0 1 (Term.flt x :: Term.flt y :: t :: rest)
        = ⟨(enif_get_double (Term.flt x)).getD 0, (enif_get_double (Term.flt y)).getD 0,
           (enif_get_double t).getD 1⟩ :: decode3 0 0 1 rest := rfl
    rw [he, hd]
    rfl
  · intro u t rest hd
    have he : decode2 0 0 (Term.flt u :: t :: rest)
        = ⟨(enif_get_double (Term.flt u)).getD 0, (enif_get_double t).getD 0⟩
            :: decode2 0 0 rest := rfl
    rw [he, hd]
    rfl

def wit9_entry : Term :=
  Term.map [("positions", Term.list [Term.atom "bad", Term.flt 2, Term.flt 3]),
            ("normals", Term.list [Term.flt 1, Term.flt 0, Term.int 7]),
            ("texcoords", Term.list [Term.flt 5, Term.binary "x"])]

/-- Witness for claim C9: an atom in a position slot decodes as 0, an
integer in the z slot of a normal decodes as 1, and the attributes are
still set. -/
theorem claim9_nonfloat_component_defaults_witness :
    (build_mesh_full wit9_entry).vertices
        = some (decode3 0 0 0 [Term.atom "bad", Term.flt 2, Term.flt 3])
      ∧ (build_mesh_full wit9_entry).normals
        = some (decode3 0 0 1 [Term.flt 1, Term.flt 0, Term.int 7])
      ∧ (build_mesh_full wit9_entry).uvs
        = some (decode2 0 0 [Term.flt 5, Term.binary "x"]) :=
  ⟨(claim9_nonfloat_component_defaults wit9_entry
      [Term.atom "bad", Term.flt 2, Term.flt 3] [Term.flt 1, Term.flt 0, Term.int 7]
      [Term.flt 5, Term.binary "x"]
      rfl (by decide) (by decide) rfl (by decide) (by decide) rfl (by decide) (by decide)).1,
   (claim9_nonfloat_component_defaults wit9_entry
      [Term.atom "bad", Term.flt 2, Term.flt 3] [Term.flt 1, Term.flt 0, Term.int 7]
      [Term.flt 5, Term.binary "x"]
      rfl (by decide) (by decide) rfl (by decide) (by decide) rfl (by decide) (by decide)).2.1,
   (claim9_nonfloat_component_defaults wit9_entry
      [Term.atom "bad", Term.flt 2, Term.flt 3] [Term.flt 1, Term.flt 0, Term.int 7]
      [Term.flt 5, Term.binary "x"]
      rfl (by decide) (by decide) rfl (by decide) (by decide) rfl (by decide) (by decide)).2.2.1⟩

/-- Claim C7: the atom ascii makes write_fbx invoke the external writer in
ASCII format, while the atom binary and every other format term, atom or
not, behave exactly like binary. -/
theorem claim7_format_selection :
    determine_format (Term.atom "ascii") = SaveFormat.ascii
      ∧ (∀ (path : String) (kvs : List (String × Term))
            (save_file : WScene → SaveFormat → Nat → Bool),
          write_fbx path (Term.map kvs) (Term.atom "ascii") save_file
            = (if save_file (build_scene (Term.map kvs)) SaveFormat.ascii 7400 then
                 WriteResult.ok path
               else WriteResult.error "Failed to save FBX"))
      ∧ (∀ fmt : Term, fmt ≠ Term.atom "ascii" → determine_format fmt = SaveFormat.binary)
      ∧ (∀ (path : String) (scene fmt : Term) (save_file : WScene → SaveFormat → Nat → Bool),
          fmt ≠ Term.atom "ascii" →
          write_fbx path scene fmt save_file
            = write_fbx path scene (Term.atom "binary") save_file) := by
  have hbin : ∀ fmt : Term, fmt ≠ Term.atom "ascii" → determine_format fmt = SaveFormat.binary := by
    intro fmt h
    cases fmt <;> try rfl
    case atom s =>
      show (if s = "ascii" then SaveFormat.ascii else SaveFormat.binary) = SaveFormat.binary
      rw [if_neg]
      intro hs
      exact h (by rw [hs])
  refine ⟨rfl, fun path kvs save_file => rfl, hbin, ?_⟩
  intro path scene fmt save_file h
  unfold write_fbx
  cases scene <;> try rfl
  case map kvs =>
    rw [hbin fmt h, hbin (Term.atom "binary")
      (by intro hh; injection hh with h2; exact absurd h2 (by decide))]

/-- Witness for claim C7: an unrecognized atom behaves like binary. -/
theorem claim7_format_selection_witness :
    write_fbx "out.fbx" (Term.map []) (Term.atom "unknown") (fun _ _ _ => true)
      = write_fbx "out.fbx" (Term.map []) (Term.atom "binary") (fun _ _ _ => true) :=
  claim7_format_selection.2.2.2 "out.fbx" (Term.map []) (Term.atom "unknown") (fun _ _ _ => true)
    (by intro hh; injection hh with h2; exact absurd h2 (by decide))
